import Mathlib

/-!
Verification of the fizikl survey/dashboard frontend and of its scoring
engine as specified.

The data model is a shallow embedding of `src/frontend/src/lib/types.ts`;
display logic comes from `src/frontend/src/app/results/[id]/page.tsx` and the
API boundary from `src/frontend/src/lib/api.ts`.  JavaScript numbers are
modelled as rationals (`ℚ`), integer-valued fields as `ℤ`/`ℕ`.  The scoring
engine itself ships only as a remote API in this repository, so its stages
are modelled from the specification text; every such definition carries a
doc comment starting `Modelled from the spec:`.
-/

namespace Fizikl

/-- The four activity levels of `ActivityLevel` in types.ts
("Низкий" | "Средний" | "Высокий" | "Очень высокий"). -/
inductive ActivityLevel where
  | low
  | medium
  | high
  | veryHigh
deriving DecidableEq, BEq

/-- The four goals of `Goal` in types.ts
("Похудение" | "Набор массы" | "Поддержание формы" | "Улучшение здоровья"). -/
inductive Goal where
  | weightLoss
  | massGain
  | maintainShape
  | improveHealth
deriving DecidableEq, BEq

/-- The five fast-food frequencies of `FastFoodFrequency` in types.ts
("Никогда" | "Редко" | "Иногда" | "Часто" | "Очень часто"). -/
inductive FastFoodFrequency where
  | never
  | rarely
  | sometimes
  | often
  | veryOften
deriving DecidableEq, BEq

/-- `SurveyAnswers` from types.ts: the ten survey fields. -/
structure SurveyAnswers where
  name : String
  age : ℤ
  activity_level : ActivityLevel
  goal : Goal
  workouts_per_week : ℤ
  sleep_hours : ℚ
  stress_level : ℤ
  water_liters : ℚ
  fastfood_frequency : FastFoodFrequency
  smokes : Bool

/-- `Gauges` from types.ts: the ten composite 0–100 indices. -/
structure Gauges where
  health_index : ℚ
  activity_score : ℚ
  recovery_quality : ℚ
  lifestyle_balance : ℚ
  energy_index : ℚ
  metabolic_load : ℚ
  cardio_risk : ℚ
  consistency : ℚ
  readiness : ℚ
  confidence : ℚ

/-- `Scores` from types.ts: the eleven 0–100 sub-scores. -/
structure Scores where
  activity : ℚ
  sleep : ℚ
  stress : ℚ
  hydration : ℚ
  nutrition : ℚ
  smoking : ℚ
  age_modifier : ℚ
  movement_neat : ℚ
  recovery_debt : ℚ
  nutrition_stability : ℚ
  habit_score : ℚ

/-- `RadarPoint` from types.ts. -/
structure RadarPoint where
  key : String
  label : String
  value : ℚ

/-- `ChartPoint` from types.ts. -/
structure ChartPoint where
  key : String
  label : String
  value : ℚ

/-- `Donut` from types.ts. -/
structure Donut where
  good : ℚ
  needs_work : ℚ

/-- `Target` from types.ts. -/
structure Target where
  key : String
  label : String
  current : ℚ
  next_tier : ℚ
  suggested : String

/-- `Charts` from types.ts. -/
structure Charts where
  dimensions : List ChartPoint
  good_vs_needs_work : Donut
  risk_composition : List ChartPoint
  percentiles : List ChartPoint
  targets : List Target

/-- `Insight` from types.ts. -/
structure Insight where
  summary_text : String
  strengths : List String
  improvement_areas : List String
  persona_tag : String

/-- The three alert severities of `Alert` in types.ts. -/
inductive Severity where
  | info
  | warn
  | high
deriving DecidableEq, BEq

/-- `Alert` from types.ts. -/
structure Alert where
  key : String
  severity : Severity
  title : String
  body : String

/-- `Recommendation` from types.ts. -/
structure Recommendation where
  key : String
  title : String
  why : String
  next_step : String
  priority : ℕ
  category : String

/-- `Recommendations` from types.ts. -/
structure Recommendations where
  top_3 : List Recommendation
  all : List Recommendation

/-- `Flags` from types.ts. -/
structure Flags where
  risk_flags : List String
  data_quality : List String
  alerts : List Alert

/-- `UserInfo` from types.ts. -/
structure UserInfo where
  name : String
  age : ℤ
  goal : Goal

/-- `Summary` from types.ts: the engine's sole output. -/
structure Summary where
  user : UserInfo
  gauges : Gauges
  scores : Scores
  radar : List RadarPoint
  charts : Charts
  insight : Insight
  recommendations : Recommendations
  flags : Flags
  generated_at : String
  version : String

/-- `SurveyResponse` from types.ts: what `submitSurvey` resolves to. -/
structure SurveyResponse where
  id : String
  results : Summary

/-- `SurveyRecord` from types.ts: what `getSurveyResults` resolves to. -/
structure SurveyRecord where
  id : String
  answers : SurveyAnswers
  results : Summary
  created_at : String

/-! ## Dashboard helpers, from src/frontend/src/app/results/[id]/page.tsx -/

/-- `getScoreColor` (page.tsx lines 23–28): Tailwind text class from a value,
with optional polarity inversion (`score = inverse ? 100 - value : value`). -/
def getScoreColor (value : ℚ) (inverse : Bool) : String :=
  let score := if inverse then 100 - value else value
  if 75 ≤ score then "text-emerald-500"
  else if 50 ≤ score then "text-yellow-500"
  else "text-red-500"

/-- `getHexColor` (page.tsx lines 30–35): hex color from a value, same
thresholds and inversion as `getScoreColor`. -/
def getHexColor (value : ℚ) (inverse : Bool) : String :=
  let score := if inverse then 100 - value else value
  if 75 ≤ score then "#10b981"
  else if 50 ≤ score then "#eab308"
  else "#ef4444"

/-- `getRiskLabel` (page.tsx lines 37–42): risk label from a value, same
thresholds and inversion as `getScoreColor`. -/
def getRiskLabel (value : ℚ) (inverse : Bool) : String :=
  let score := if inverse then 100 - value else value
  if 75 ≤ score then "Низкий"
  else if 50 ≤ score then "Средний"
  else "Высокий"

/-- The inline `getLabel` of the `MiniDonut` component (page.tsx lines
209–218): for inverse metrics low value is good; branches on `value <= 25`
and `value <= 50`, otherwise on `value >= 75` and `value >= 50`. -/
def miniDonutGetLabel (value : ℚ) (inverse : Bool) : String :=
  if inverse then
    if value ≤ 25 then "Низкий"
    else if value ≤ 50 then "Средний"
    else "Высокий"
  else
    if 75 ≤ value then "Высокий"
    else if 50 ≤ value then "Средний"
    else "Низкий"

/-- One entry of the results page's `radarData` array: recharts data with a
`subject` label and a `value`. -/
structure RadarDatum where
  subject : String
  value : ℚ

/-- `radarData` (page.tsx lines 316–325): the eight radar metrics, excluding
`confidence` and `health_index`, with `cardio_risk` and `metabolic_load`
inverted (`100 - raw`) so that higher is better on the radar. -/
def radarData (gauges : Gauges) : List RadarDatum :=
  [ ⟨"Готовность", gauges.readiness⟩,
    ⟨"Энергия", gauges.energy_index⟩,
    ⟨"Активность", gauges.activity_score⟩,
    ⟨"Восстановление", gauges.recovery_quality⟩,
    ⟨"Стабильность", gauges.consistency⟩,
    ⟨"Баланс", gauges.lifestyle_balance⟩,
    ⟨"Кардио-риск", 100 - gauges.cardio_risk⟩,
    ⟨"Метаболизм", 100 - gauges.metabolic_load⟩ ]

/-- The severity rank used by `sortedAlerts` (page.tsx lines 328–331):
`order = { high: 0, warn: 1, info: 2 }`. -/
def severityOrder : Severity → ℕ
  | .high => 0
  | .warn => 1
  | .info => 2

/-- Stable insertion into a list already sorted by `rank`: the new element
goes before every element of equal rank, as a JavaScript stable `sort` keeps
an earlier element before later ones of equal rank. -/
def insertRanked {α : Type} (rank : α → ℕ) (a : α) : List α → List α
  | [] => [a]
  | b :: l => if rank b < rank a then b :: insertRanked rank a l else a :: b :: l

/-- Stable sort by `rank` ascending, the shallow embedding of
`Array.prototype.sort` with comparator `rank a - rank b` (ECMAScript sort is
stable). -/
def sortRanked {α : Type} (rank : α → ℕ) : List α → List α
  | [] => []
  | a :: l => insertRanked rank a (sortRanked rank l)

/-- `sortedAlerts` (page.tsx lines 328–331): alerts sorted high, then warn,
then info, by the stable JavaScript sort with comparator
`order[a.severity] - order[b.severity]`. -/
def sortedAlerts (alerts : List Alert) : List Alert :=
  sortRanked (fun a => severityOrder a.severity) alerts

/-! ## The scoring engine, modelled from the specification

The engine runs behind the `/api/survey` boundary and is not part of the
frontend sources, so each stage below is modelled from the specification
text (§4.1–§4.6). -/

/-- Modelled from the spec: the clamp policy of §4.2 — every sub-score is
clamped to [0, 100] after computation. -/
def clamp01 (x : ℚ) : ℚ := max 0 (min 100 x)

/-- Modelled from the spec: the ordinal rank of the four activity levels. -/
def activityOrdinal : ActivityLevel → ℚ
  | .low => 0
  | .medium => 1
  | .high => 2
  | .veryHigh => 3

/-- Modelled from the spec: the ordinal rank of the five fast-food
frequencies. -/
def fastfoodOrdinal : FastFoodFrequency → ℚ
  | .never => 0
  | .rarely => 1
  | .sometimes => 2
  | .often => 3
  | .veryOften => 4

/-- Modelled from the spec: the §3 input invariant — every field present and
within its declared range (age 18–80, workouts 0–7, sleep 4–12, stress 1–10,
water 0–5, non-empty name; the enum fields are total by construction). -/
def Valid (a : SurveyAnswers) : Prop :=
  a.name ≠ "" ∧
  18 ≤ a.age ∧ a.age ≤ 80 ∧
  0 ≤ a.workouts_per_week ∧ a.workouts_per_week ≤ 7 ∧
  4 ≤ a.sleep_hours ∧ a.sleep_hours ≤ 12 ∧
  1 ≤ a.stress_level ∧ a.stress_level ≤ 10 ∧
  0 ≤ a.water_liters ∧ a.water_liters ≤ 5

instance (a : SurveyAnswers) : Decidable (Valid a) := by
  unfold Valid
  infer_instance

/-- Modelled from the spec: the sleep score peaks in a healthy-hours band
(7–9 h) and decays outside it (§4.2); this is the distance to that band. -/
def sleepBandDistance (s : ℚ) : ℚ :=
  if s < 7 then 7 - s else if 9 < s then s - 9 else 0

/-- Modelled from the spec: the Category Scorer (§4.2) — eleven sub-scores,
each a monotone or piecewise mapping of one or two answer fields, clamped to
[0, 100] after computation. -/
def computeScores (a : SurveyAnswers) : Scores :=
  { activity := clamp01 (25 * activityOrdinal a.activity_level +
      5 * (a.workouts_per_week : ℚ))
    sleep := clamp01 (100 - 20 * sleepBandDistance a.sleep_hours)
    stress := clamp01 (110 - 10 * (a.stress_level : ℚ))
    hydration := clamp01 (40 * a.water_liters)
    nutrition := clamp01 (100 - 22 * fastfoodOrdinal a.fastfood_frequency)
    smoking := clamp01 (if a.smokes then 20 else 100)
    age_modifier := clamp01 (105 - (a.age : ℚ))
    movement_neat := clamp01 (20 * activityOrdinal a.activity_level +
      6 * (a.workouts_per_week : ℚ))
    recovery_debt := clamp01 (10 * a.sleep_hours - 6 * (a.stress_level : ℚ))
    nutrition_stability := clamp01 (100 - 20 * fastfoodOrdinal a.fastfood_frequency)
    habit_score := clamp01 ((if a.smokes then 0 else 50) +
      (50 - 12 * fastfoodOrdinal a.fastfood_frequency)) }

/-- Modelled from the spec: extreme/default answers reduce confidence
(§4.3); the count of answers sitting at the edge of their domain. -/
def extremeAnswerCount (a : SurveyAnswers) : ℚ :=
  (if a.stress_level = 1 ∨ a.stress_level = 10 then 1 else 0) +
  (if a.sleep_hours = 4 ∨ a.sleep_hours = 12 then 1 else 0) +
  (if a.water_liters = 0 ∨ a.water_liters = 5 then 1 else 0) +
  (if a.workouts_per_week = 0 ∨ a.workouts_per_week = 7 then 1 else 0)

/-- Modelled from the spec: the Composite Index Builder (§4.3) — each gauge a
fixed weighted combination of scores with weights summing to 100, divided by
100, which keeps the output in [0, 100]; `cardio_risk` and `metabolic_load`
are inverse-polarity (100 minus a direct combination); `confidence` reflects
how meaningfully the input space was answered. -/
def computeGauges (a : SurveyAnswers) (s : Scores) : Gauges :=
  { health_index := (20 * s.activity + 15 * s.sleep + 10 * s.stress +
      10 * s.hydration + 15 * s.nutrition + 15 * s.smoking +
      5 * s.age_modifier + 10 * s.habit_score) / 100
    activity_score := (60 * s.activity + 40 * s.movement_neat) / 100
    recovery_quality := (50 * s.sleep + 30 * s.stress + 20 * s.recovery_debt) / 100
    lifestyle_balance := (25 * s.sleep + 25 * s.stress + 25 * s.nutrition +
      25 * s.hydration) / 100
    energy_index := (40 * s.sleep + 30 * s.stress + 30 * s.hydration) / 100
    metabolic_load := 100 - (50 * s.nutrition + 25 * s.activity +
      25 * s.nutrition_stability) / 100
    cardio_risk := 100 - (40 * s.smoking + 30 * s.activity + 30 * s.stress) / 100
    consistency := (50 * s.habit_score + 50 * s.nutrition_stability) / 100
    readiness := (40 * s.activity + 30 * s.sleep + 30 * s.stress) / 100
    confidence := clamp01 (100 - 15 * extremeAnswerCount a) }

/-- Modelled from the spec: the fixed ascending tier ladder 50/65/75/85/95
(§3, Target). -/
def tierLadder : List ℚ := [50, 65, 75, 85, 95]

/-- Modelled from the spec: the next achievable milestone — the first (hence
smallest, the ladder being ascending) tier value strictly greater than
`current`, none when `current` is at or above the top tier (§4.4e). -/
def nextTier (current : ℚ) : Option ℚ :=
  tierLadder.find? (fun t => decide (current < t))

/-- Modelled from the spec: the Target entry for one gauge — omitted (empty
list) when the gauge is already at or above the top tier, never a degenerate
`next_tier = current` (§4.4e). -/
def targetFor (key label suggested : String) (current : ℚ) : List Target :=
  match nextTier current with
  | none => []
  | some nt => [⟨key, label, current, nt, suggested⟩]

/-- Modelled from the spec: the engine-side 8-point radar (§4.4a) — the fixed
gauge subset excluding `health_index` and `confidence`, with `cardio_risk`
and `metabolic_load` pre-inverted (stored = 100 − raw). -/
def engineRadar (g : Gauges) : List RadarPoint :=
  [ ⟨"readiness", "Готовность", g.readiness⟩,
    ⟨"energy_index", "Энергия", g.energy_index⟩,
    ⟨"activity_score", "Активность", g.activity_score⟩,
    ⟨"recovery_quality", "Восстановление", g.recovery_quality⟩,
    ⟨"consistency", "Стабильность", g.consistency⟩,
    ⟨"lifestyle_balance", "Баланс", g.lifestyle_balance⟩,
    ⟨"cardio_risk", "Кардио-риск", 100 - g.cardio_risk⟩,
    ⟨"metabolic_load", "Метаболизм", 100 - g.metabolic_load⟩ ]

/-- Modelled from the spec: the Chart/Series Builder (§4.4) — dimension
series, the good/needs-work split against the 50-point threshold, the
risk composition over the two inverse-polarity gauges, percentile estimates
from a fixed reference, and the next-tier targets. -/
def buildCharts (g : Gauges) : Charts :=
  { dimensions := (engineRadar g).map (fun p => ⟨p.key, p.label, p.value⟩)
    good_vs_needs_work :=
      ⟨((engineRadar g).countP (fun p => decide (50 ≤ p.value)) : ℚ),
       ((engineRadar g).countP (fun p => decide (p.value < 50)) : ℚ)⟩
    risk_composition :=
      [ ⟨"cardio_risk", "Кардио-риск", g.cardio_risk⟩,
        ⟨"metabolic_load", "Метаболическая нагрузка", g.metabolic_load⟩ ]
    percentiles :=
      [ ⟨"health_index", "Индекс здоровья", g.health_index⟩,
        ⟨"activity_score", "Активность", g.activity_score⟩,
        ⟨"readiness", "Готовность", g.readiness⟩ ]
    targets :=
      targetFor "activity_score" "Активность"
        "Добавьте одну тренировку в неделю" g.activity_score ++
      targetFor "recovery_quality" "Восстановление"
        "Ложитесь спать на 30 минут раньше" g.recovery_quality ++
      targetFor "consistency" "Стабильность"
        "Закрепите один полезный ритуал" g.consistency ++
      targetFor "readiness" "Готовность"
        "Снижайте стресс дыхательными практиками" g.readiness }

/-- Modelled from the spec: the persona tag, selected from a fixed rule table
keyed on the goal (§4.5). -/
def personaTag : Goal → String
  | .weightLoss => "Целеустремлённый минус"
  | .massGain => "Строитель массы"
  | .maintainShape => "Хранитель формы"
  | .improveHealth => "Инвестор в здоровье"

/-- Modelled from the spec: the goal phrase of the summary text's fixed rule
table (§4.5). -/
def goalPhrase : Goal → String
  | .weightLoss => "Ваша цель — похудение."
  | .massGain => "Ваша цель — набор массы."
  | .maintainShape => "Ваша цель — поддержание формы."
  | .improveHealth => "Ваша цель — улучшение здоровья."

/-- Modelled from the spec: the Insight Generator (§4.5) — deterministic
summary text and persona from fixed rule tables keyed on goal and gauges,
strengths/improvement areas from per-gauge thresholds honoring polarity. -/
def buildInsight (a : SurveyAnswers) (g : Gauges) : Insight :=
  { summary_text := goalPhrase a.goal ++
      (if 75 ≤ g.health_index then " Отличная база — закрепляйте привычки."
       else if 50 ≤ g.health_index then " Хорошая база с зонами роста."
       else " Начните с базовых привычек.")
    strengths :=
      (if 75 ≤ g.activity_score then ["Высокая активность"] else []) ++
      (if 75 ≤ g.recovery_quality then ["Хорошее восстановление"] else []) ++
      (if g.cardio_risk ≤ 25 then ["Низкий кардио-риск"] else [])
    improvement_areas :=
      (if g.activity_score ≤ 50 then ["Мало движения"] else []) ++
      (if g.recovery_quality ≤ 50 then ["Недостаточное восстановление"] else []) ++
      (if 75 ≤ g.cardio_risk then ["Высокий кардио-риск"] else [])
    persona_tag := personaTag a.goal }

/-- Modelled from the spec: the Flag Generator (§4.5) — risk flags for
documented danger combinations (smoking with high cardio risk), data-quality
flags for low confidence or extreme answers, and one severity-tagged alert
per triggered condition, in fixed generation order. -/
def buildFlags (a : SurveyAnswers) (g : Gauges) : Flags :=
  { risk_flags :=
      (if a.smokes ∧ 60 < g.cardio_risk then ["smoking_high_cardio_risk"] else []) ++
      (if 75 ≤ g.metabolic_load then ["high_metabolic_load"] else [])
    data_quality :=
      (if g.confidence < 50 then ["low_confidence"] else []) ++
      (if 2 ≤ extremeAnswerCount a then ["answers_at_extremes"] else [])
    alerts :=
      (if a.smokes then
        [⟨"smoking", .high, "Курение",
          "Курение резко повышает кардио-риски."⟩] else []) ++
      (if 8 ≤ a.stress_level then
        [⟨"stress", .warn, "Высокий стресс",
          "Хронический стресс мешает восстановлению."⟩] else []) ++
      (if a.sleep_hours < 6 then
        [⟨"sleep", .warn, "Недостаток сна",
          "Менее 6 часов сна снижает восстановление."⟩] else []) ++
      (if a.water_liters < 1 then
        [⟨"water", .info, "Мало воды",
          "Пейте больше воды в течение дня."⟩] else []) }

/-- One candidate of the recommendation catalog before ranking (§4.6). -/
structure RecCandidate where
  key : String
  title : String
  why : String
  next_step : String
  category : String
  weight : ℕ

/-- Modelled from the spec: the fixed recommendation catalog (§4.6) — each
candidate triggered by its gauge/score being away from a healthy threshold,
weighted by how far it is and by goal alignment. -/
def recCatalog (a : SurveyAnswers) (s : Scores) : List RecCandidate :=
  (if s.activity < 60 then
    [⟨"move_more", "Двигайтесь больше", "Активность ниже нормы",
      "Добавьте две прогулки по 30 минут", "activity",
      (if s.activity < 40 then 30 else 20) +
        (if a.goal = .weightLoss then 15 else 0)⟩] else []) ++
  (if s.sleep < 60 then
    [⟨"sleep_more", "Спите больше", "Сон ниже здоровой нормы",
      "Сдвиньте отбой на 30 минут раньше", "recovery",
      (if s.sleep < 40 then 30 else 20) +
        (if a.goal = .improveHealth then 15 else 0)⟩] else []) ++
  (if s.hydration < 60 then
    [⟨"drink_water", "Пейте больше воды", "Гидратация ниже нормы",
      "Держите бутылку воды под рукой", "hydration",
      (if s.hydration < 40 then 30 else 20)⟩] else []) ++
  (if a.smokes then
    [⟨"quit_smoking", "Бросьте курить", "Курение — главный риск",
      "Запишитесь на программу отказа", "habits",
      40 + (if a.goal = .improveHealth then 15 else 0)⟩] else []) ++
  (if s.nutrition < 60 then
    [⟨"eat_better", "Улучшите питание", "Частый фастфуд нагружает обмен",
      "Замените один фастфуд-приём домашней едой", "nutrition",
      (if s.nutrition < 40 then 30 else 20)⟩] else []) ++
  [⟨"keep_balance", "Поддерживайте баланс", "Стабильность закрепляет результат",
    "Планируйте неделю заранее", "habits", 5⟩]

/-- Modelled from the spec: the final Recommendations value (§4.6) — `all` is
the full ranked list and `top_3` its first three elements, never padded and
never independently computed. -/
def mkRecommendations (all : List Recommendation) : Recommendations :=
  ⟨all.take 3, all⟩

/-- Modelled from the spec: the Recommendation Ranker (§4.6) — candidates are
stable-sorted by weight descending (ties broken by catalog order), `priority`
is the resulting 1-based rank. -/
def buildRecommendations (a : SurveyAnswers) (s : Scores) : Recommendations :=
  mkRecommendations
    ((sortRanked (fun c => 100 - c.weight) (recCatalog a s)).enum.map
      (fun ic => ⟨ic.2.key, ic.2.title, ic.2.why, ic.2.next_step,
        ic.1 + 1, ic.2.category⟩))

/-- Modelled from the spec: the single-pass pipeline Scorer → Index Builder →
{Chart Builder, Insight Generator} → Recommendation Ranker assembling the
Summary (§2, §3); the generation timestamp is the caller-supplied clock value
`now`, the engine's only non-input-derived field. -/
def runEngine (a : SurveyAnswers) (now : String) : Summary :=
  { user := ⟨a.name, a.age, a.goal⟩
    gauges := computeGauges a (computeScores a)
    scores := computeScores a
    radar := engineRadar (computeGauges a (computeScores a))
    charts := buildCharts (computeGauges a (computeScores a))
    insight := buildInsight a (computeGauges a (computeScores a))
    recommendations := buildRecommendations a (computeScores a)
    flags := buildFlags a (computeGauges a (computeScores a))
    generated_at := now
    version := "1.0.0" }

/-- A Summary with its generation timestamp erased, for comparing two runs
up to the timestamp. -/
def stripGeneratedAt (s : Summary) : Summary :=
  { s with generated_at := "" }

/-- The kinds of `ValidationError` of the Input Validator (§4.1, §7). -/
inductive ValidationError where
  | invalidName
  | invalidAge
  | invalidWorkouts
  | invalidSleep
  | invalidStress
  | invalidWater
deriving DecidableEq, BEq

/-- Modelled from the spec: rounding a numeric answer to its declared 0.5
step (§4.1 normalization). -/
def roundToHalf (x : ℚ) : ℚ := (round (2 * x) : ℤ) / 2

/-- Modelled from the spec: the Input Validator/Normalizer (§4.1) — fails
with a `ValidationError` when a field is outside its declared domain, checked
in field order; on success returns the answers with sleep and water rounded
to the 0.5 step. The only stage permitted to reject input. -/
def validate (a : SurveyAnswers) : Except ValidationError SurveyAnswers :=
  if a.name = "" then .error .invalidName
  else if a.age < 18 ∨ 80 < a.age then .error .invalidAge
  else if a.workouts_per_week < 0 ∨ 7 < a.workouts_per_week then .error .invalidWorkouts
  else if a.sleep_hours < 4 ∨ 12 < a.sleep_hours then .error .invalidSleep
  else if a.stress_level < 1 ∨ 10 < a.stress_level then .error .invalidStress
  else if a.water_liters < 0 ∨ 5 < a.water_liters then .error .invalidWater
  else .ok { a with
    sleep_hours := roundToHalf a.sleep_hours
    water_liters := roundToHalf a.water_liters }

/-- Modelled from the spec: the full pipeline — validation first, scoring
only on validated input (§2, §4.1); a validation failure short-circuits and
no Summary is produced. -/
def runPipeline (a : SurveyAnswers) (now : String) : Except ValidationError Summary :=
  (validate a).map (fun v => runEngine v now)

/-! ## The API boundary, from src/frontend/src/lib/api.ts -/

/-- The fetch API's `Response.ok`: true exactly for a 2xx status. -/
def statusOk (status : ℕ) : Bool :=
  decide (200 ≤ status) && decide (status < 300)

/-- A response to `GET /api/results/...` as `getSurveyResults` sees it: the
HTTP status and the record its body parses to. -/
structure ResultsResponse where
  status : ℕ
  record : SurveyRecord

/-- `getSurveyResults` from api.ts (lines 24–35): on a non-ok response throws
"Survey not found" for status 404 and "Failed to fetch results" otherwise;
on an ok response resolves to the parsed stored record. -/
def getSurveyResults (resp : ResultsResponse) : Except String SurveyRecord :=
  if !(statusOk resp.status) then
    if resp.status = 404 then .error "Survey not found"
    else .error "Failed to fetch results"
  else .ok resp.record

/-- A response to `POST /api/survey` as `submitSurvey` sees it: the HTTP
status, the error body's optional `detail` field (none when absent or null),
and the success body. -/
structure SubmitResponse where
  status : ℕ
  detail : Option String
  body : SurveyResponse

/-- JavaScript's `error.detail || fallback`: `||` yields the fallback for
undefined, null and the empty string (all falsy). -/
def jsDetailOr (detail : Option String) (fallback : String) : String :=
  match detail with
  | some d => if d = "" then fallback else d
  | none => fallback

/-- `submitSurvey` from api.ts (lines 5–22): on a non-ok response throws
`error.detail || "Failed to submit survey"`; on an ok response resolves to
the parsed `{id, results}` object. -/
def submitSurvey (resp : SubmitResponse) : Except String SurveyResponse :=
  if !(statusOk resp.status) then
    .error (jsDetailOr resp.detail "Failed to submit survey")
  else .ok resp.body

/-- A concrete valid survey submission, used to instantiate theorems. -/
def answers0 : SurveyAnswers :=
  ⟨"Иван", 30, .medium, .improveHealth, 3, 8, 4, 2, .sometimes, false⟩

/-- A concrete submission with age 17, otherwise valid. -/
def answers17 : SurveyAnswers :=
  ⟨"Иван", 17, .medium, .improveHealth, 3, 8, 4, 2, .sometimes, false⟩

/-- The clamp invariant's interval: a value within [0, 100]. -/
def InRange (x : ℚ) : Prop := 0 ≤ x ∧ x ≤ 100

/-- All eleven Score values lie in [0, 100]. -/
def ScoresInRange (s : Scores) : Prop :=
  InRange s.activity ∧ InRange s.sleep ∧ InRange s.stress ∧
  InRange s.hydration ∧ InRange s.nutrition ∧ InRange s.smoking ∧
  InRange s.age_modifier ∧ InRange s.movement_neat ∧ InRange s.recovery_debt ∧
  InRange s.nutrition_stability ∧ InRange s.habit_score

/-- All ten Gauge values lie in [0, 100]. -/
def GaugesInRange (g : Gauges) : Prop :=
  InRange g.health_index ∧ InRange g.activity_score ∧
  InRange g.recovery_quality ∧ InRange g.lifestyle_balance ∧
  InRange g.energy_index ∧ InRange g.metabolic_load ∧ InRange g.cardio_risk ∧
  InRange g.consistency ∧ InRange g.readiness ∧ InRange g.confidence

/-- A concrete non-ok submit response whose body carries `detail: ""`. -/
def emptyDetailResponse : SubmitResponse :=
  ⟨400, some "", ⟨"rec-1", runEngine answers0 "2024-01-01T00:00:00Z"⟩⟩

/-! ## Stable sort lemmas -/

/-- Inserting an element whose rank is at most every rank in the list puts it
in front. -/
theorem insertRanked_cons_of_not_lt {α : Type} (rank : α → ℕ) (a : α)
    (l : List α) (h : ∀ b ∈ l, ¬ rank b < rank a) :
    insertRanked rank a l = a :: l := by
  cases l with
  | nil => rfl
  | cons b bs => simp [insertRanked, h b (List.mem_cons_self b bs)]

/-- Inserting an element past a block of strictly smaller ranks walks through
the whole block. -/
theorem insertRanked_append_of_lt {α : Type} (rank : α → ℕ) (a : α)
    (xs ys : List α) (h : ∀ b ∈ xs, rank b < rank a) :
    insertRanked rank a (xs ++ ys) = xs ++ insertRanked rank a ys := by
  induction xs with
  | nil => rfl
  | cons b bs ih =>
    simp [insertRanked, h b (List.mem_cons_self b bs),
      ih (fun c hc => h c (List.mem_cons_of_mem b hc))]

/-- A stable sort by a rank taking values in {0, 1, 2} is exactly the
concatenation of the three rank classes, each in original order. -/
theorem sortRanked_filter3 {α : Type} (rank : α → ℕ) (hr : ∀ x, rank x ≤ 2)
    (l : List α) :
    sortRanked rank l =
      l.filter (fun x => rank x == 0) ++ l.filter (fun x => rank x == 1) ++
        l.filter (fun x => rank x == 2) := by
  induction l with
  | nil => rfl
  | cons a l ih =>
    have rank_of_mem : ∀ (k : ℕ) (b : α),
        b ∈ l.filter (fun x => rank x == k) → rank b = k := by
      intro k b hb
      have := (List.mem_filter.mp hb).2
      simpa using this
    have ha := hr a
    rcases (by omega : rank a = 0 ∨ rank a = 1 ∨ rank a = 2) with h | h | h
    · rw [sortRanked, ih,
        insertRanked_cons_of_not_lt rank a _ (fun b _ => by omega)]
      simp [List.filter_cons, h]
    · rw [sortRanked, ih, List.append_assoc,
        insertRanked_append_of_lt rank a _ _
          (fun b hb => by have := rank_of_mem 0 b hb; omega),
        insertRanked_cons_of_not_lt rank a _ (by
          intro b hb
          rcases List.mem_append.mp hb with hb1 | hb2
          · have := rank_of_mem 1 b hb1; omega
          · have := rank_of_mem 2 b hb2; omega)]
      simp [List.filter_cons, h]
    · rw [sortRanked, ih,
        insertRanked_append_of_lt rank a _ _
          (fun b hb => by
            rcases List.mem_append.mp hb with hb1 | hb2
            · have := rank_of_mem 0 b hb1; omega
            · have := rank_of_mem 1 b hb2; omega),
        insertRanked_cons_of_not_lt rank a _
          (fun b hb => by have := rank_of_mem 2 b hb; omega)]
      simp [List.filter_cons, h]

/-! ## Claim theorems about the dashboard -/

/-- C1: for every gauge record, the radar list built by the results page has
exactly 8 points; its subjects are the fixed eight metrics and never the
health-index or confidence gauges; the two inverse-polarity points
(Кардио-риск = cardio_risk, Метаболизм = metabolic_load) carry `100 - raw`,
while every other point carries the raw gauge value. -/
theorem radar_eight_points (g : Gauges) :
    (radarData g).length = 8 ∧
    (radarData g).map (fun p => p.subject) =
      ["Готовность", "Энергия", "Активность", "Восстановление",
       "Стабильность", "Баланс", "Кардио-риск", "Метаболизм"] ∧
    (∀ p ∈ radarData g,
      p.subject ≠ "Индекс здоровья" ∧ p.subject ≠ "Уверенность") ∧
    (radarData g).map (fun p => p.value) =
      [g.readiness, g.energy_index, g.activity_score, g.recovery_quality,
       g.consistency, g.lifestyle_balance,
       100 - g.cardio_risk, 100 - g.metabolic_load] := by
  refine ⟨rfl, rfl, ?_, rfl⟩
  intro p hp
  simp only [radarData, List.mem_cons, List.not_mem_nil, or_false] at hp
  rcases hp with rfl | rfl | rfl | rfl | rfl | rfl | rfl | rfl <;>
    exact ⟨by simp, by simp⟩

/-- C2: sorting alerts for display puts every high-severity alert first, then
every warn, then every info, and inside each severity class the original
generation order is preserved (the three `filter`s keep original order). -/
theorem sortedAlerts_severity_partition (alerts : List Alert) :
    sortedAlerts alerts =
      alerts.filter (fun a => a.severity == Severity.high) ++
        alerts.filter (fun a => a.severity == Severity.warn) ++
        alerts.filter (fun a => a.severity == Severity.info) := by
  have hbound : ∀ a : Alert, severityOrder a.severity ≤ 2 := by
    intro a; cases a.severity <;> decide
  have e0 : alerts.filter (fun a => severityOrder a.severity == 0) =
      alerts.filter (fun a => a.severity == Severity.high) :=
    List.filter_congr (fun a _ => by cases a.severity <;> rfl)
  have e1 : alerts.filter (fun a => severityOrder a.severity == 1) =
      alerts.filter (fun a => a.severity == Severity.warn) :=
    List.filter_congr (fun a _ => by cases a.severity <;> rfl)
  have e2 : alerts.filter (fun a => severityOrder a.severity == 2) =
      alerts.filter (fun a => a.severity == Severity.info) :=
    List.filter_congr (fun a _ => by cases a.severity <;> rfl)
  rw [sortedAlerts, sortRanked_filter3 _ hbound, e0, e1, e2]

/-- C10: polarity handling on the dashboard is a uniform pre-inversion:
`getScoreColor v true = getScoreColor (100 - v) false`, and likewise for
`getHexColor` and `getRiskLabel` (same 75/50 thresholds in both polarities);
and for every integer n in [0, 100], `MiniDonut`'s inline inverse label rule
agrees with `getRiskLabel n true`. -/
theorem polarity_uniform_inversion (v : ℚ) (n : ℤ)
    (h0 : 0 ≤ n) (h1 : n ≤ 100) :
    getScoreColor v true = getScoreColor (100 - v) false ∧
    getHexColor v true = getHexColor (100 - v) false ∧
    getRiskLabel v true = getRiskLabel (100 - v) false ∧
    miniDonutGetLabel (n : ℚ) true = getRiskLabel (n : ℚ) true := by
  refine ⟨rfl, rfl, rfl, ?_⟩
  unfold miniDonutGetLabel getRiskLabel
  simp only [if_true, if_false]
  split_ifs <;> first | rfl | (exfalso; linarith)

/-! ## Claim theorems about the engine -/

/-- The clamp is bounded below by 0. -/
theorem clamp01_nonneg (x : ℚ) : 0 ≤ clamp01 x := le_max_left 0 _

/-- The clamp is bounded above by 100. -/
theorem clamp01_le_hundred (x : ℚ) : clamp01 x ≤ 100 :=
  max_le (by norm_num) (min_le_left 100 x)

/-- The clamp lands in [0, 100]. -/
theorem clamp01_in_range (x : ℚ) : InRange (clamp01 x) :=
  ⟨clamp01_nonneg x, clamp01_le_hundred x⟩

/-- Every sub-score of the Category Scorer is clamped, hence in [0, 100]. -/
theorem computeScores_in_range (a : SurveyAnswers) :
    ScoresInRange (computeScores a) :=
  ⟨clamp01_in_range _, clamp01_in_range _, clamp01_in_range _,
   clamp01_in_range _, clamp01_in_range _, clamp01_in_range _,
   clamp01_in_range _, clamp01_in_range _, clamp01_in_range _,
   clamp01_in_range _, clamp01_in_range _⟩

set_option maxHeartbeats 1000000 in
/-- Every gauge of the Composite Index Builder lies in [0, 100], given
in-range scores: each direct gauge is a convex combination (weights summing
to 100, then divided by 100), each inverse gauge is 100 minus one, and
confidence is clamped. -/
theorem computeGauges_in_range (a : SurveyAnswers) (s : Scores)
    (hs : ScoresInRange s) : GaugesInRange (computeGauges a s) := by
  obtain ⟨⟨h1a, h1b⟩, ⟨h2a, h2b⟩, ⟨h3a, h3b⟩, ⟨h4a, h4b⟩, ⟨h5a, h5b⟩,
    ⟨h6a, h6b⟩, ⟨h7a, h7b⟩, ⟨h8a, h8b⟩, ⟨h9a, h9b⟩, ⟨h10a, h10b⟩,
    ⟨h11a, h11b⟩⟩ := hs
  unfold GaugesInRange InRange
  simp only [computeGauges]
  refine ⟨⟨?_, ?_⟩, ⟨?_, ?_⟩, ⟨?_, ?_⟩, ⟨?_, ?_⟩, ⟨?_, ?_⟩, ⟨?_, ?_⟩,
    ⟨?_, ?_⟩, ⟨?_, ?_⟩, ⟨?_, ?_⟩, ⟨clamp01_nonneg _, clamp01_le_hundred _⟩⟩
  · linarith
  · linarith
  · linarith
  · linarith
  · linarith
  · linarith
  · linarith
  · linarith
  · linarith
  · linarith
  · linarith
  · linarith
  · linarith
  · linarith
  · linarith
  · linarith
  · linarith
  · linarith

/-- C4: for every valid SurveyAnswers input, every one of the eleven Score
values and every one of the ten Gauge values of the produced Summary lies in
the closed interval [0, 100]. -/
theorem scores_gauges_in_unit_interval (a : SurveyAnswers) (now : String)
    (h : Valid a) :
    ScoresInRange (runEngine a now).scores ∧
    GaugesInRange (runEngine a now).gauges :=
  ⟨computeScores_in_range a,
   computeGauges_in_range a (computeScores a) (computeScores_in_range a)⟩

/-- Witness for C4 at a concrete valid submission. -/
theorem scores_gauges_in_unit_interval_witness :
    ScoresInRange (runEngine answers0 "2024-01-01T00:00:00Z").scores ∧
    GaugesInRange (runEngine answers0 "2024-01-01T00:00:00Z").gauges :=
  scores_gauges_in_unit_interval answers0 "2024-01-01T00:00:00Z" (by decide)

/-- C5: the engine is deterministic — two runs on identical valid input agree
on every Summary field except the generation timestamp (erasing the
timestamp makes the two outputs equal). -/
theorem engine_deterministic (a : SurveyAnswers) (t1 t2 : String)
    (h : Valid a) :
    stripGeneratedAt (runEngine a t1) = stripGeneratedAt (runEngine a t2) :=
  rfl

/-- Witness for C5 at a concrete valid submission and two timestamps. -/
theorem engine_deterministic_witness :
    stripGeneratedAt (runEngine answers0 "2024-01-01T00:00:00Z") =
    stripGeneratedAt (runEngine answers0 "2025-06-15T12:00:00Z") :=
  engine_deterministic answers0 "2024-01-01T00:00:00Z" "2025-06-15T12:00:00Z"
    (by decide)

/-- The ranker's final assembly takes the first three of the ranked list. -/
theorem mkRecommendations_take (l : List Recommendation) :
    (mkRecommendations l).top_3 = (mkRecommendations l).all.take 3 ∧
    (mkRecommendations l).top_3 <+: (mkRecommendations l).all ∧
    ((mkRecommendations l).all.length < 3 →
      (mkRecommendations l).top_3 = (mkRecommendations l).all) :=
  ⟨rfl, List.take_prefix 3 l, fun h => List.take_of_length_le (le_of_lt h)⟩

/-- C3: in every Recommendations value the engine produces, `top_3` is the
first three elements of `all` (a prefix, never independently computed), and
equals `all` outright when `all` has fewer than three elements. -/
theorem top3_take_of_all (a : SurveyAnswers) (now : String) :
    (runEngine a now).recommendations.top_3 =
      (runEngine a now).recommendations.all.take 3 ∧
    (runEngine a now).recommendations.top_3 <+:
      (runEngine a now).recommendations.all ∧
    ((runEngine a now).recommendations.all.length < 3 →
      (runEngine a now).recommendations.top_3 =
        (runEngine a now).recommendations.all) :=
  mkRecommendations_take _

/-- Witness for C10 at v = 30, n = 40. -/
theorem polarity_uniform_inversion_witness :
    getScoreColor 30 true = getScoreColor (100 - 30) false ∧
    getHexColor 30 true = getHexColor (100 - 30) false ∧
    getRiskLabel 30 true = getRiskLabel (100 - 30) false ∧
    miniDonutGetLabel ((40 : ℤ) : ℚ) true = getRiskLabel ((40 : ℤ) : ℚ) true :=
  polarity_uniform_inversion 30 40 (by decide) (by decide)

/-- C6: over the fixed ascending tier ladder, a gauge whose current value is
at or above the top tier (95) gets no Target entry; a gauge below it gets
exactly one Target whose `next_tier` is the smallest ladder value strictly
greater than `current` — in particular `current < next_tier` always, never
`next_tier = current`. -/
theorem targets_next_tier (key label suggested : String) (current : ℚ) :
    (95 ≤ current → targetFor key label suggested current = []) ∧
    (current < 95 →
      ∃ nt, nextTier current = some nt ∧
        targetFor key label suggested current =
          [⟨key, label, current, nt, suggested⟩] ∧
        current < nt ∧ nt ∈ tierLadder ∧
        ∀ u ∈ tierLadder, current < u → nt ≤ u) := by
  constructor
  · intro h
    have hn : nextTier current = none := by
      rw [nextTier, List.find?_eq_none]
      intro t ht
      simp only [tierLadder, List.mem_cons, List.not_mem_nil, or_false] at ht
      rcases ht with rfl | rfl | rfl | rfl | rfl <;>
        simp only [decide_eq_true_eq, not_lt] <;> linarith
    simp [targetFor, hn]
  · intro h
    have mem50 : (50 : ℚ) ∈ tierLadder := by simp [tierLadder]
    have mem65 : (65 : ℚ) ∈ tierLadder := by simp [tierLadder]
    have mem75 : (75 : ℚ) ∈ tierLadder := by simp [tierLadder]
    have mem85 : (85 : ℚ) ∈ tierLadder := by simp [tierLadder]
    have mem95 : (95 : ℚ) ∈ tierLadder := by simp [tierLadder]
    rcases lt_or_le current 50 with h50 | h50
    · have hn : nextTier current = some 50 := by
        rw [nextTier, tierLadder]
        exact List.find?_cons_of_pos _ (by simpa using h50)
      refine ⟨50, hn, by simp [targetFor, hn], h50, mem50, ?_⟩
      intro u hu hcu
      simp only [tierLadder, List.mem_cons, List.not_mem_nil, or_false] at hu
      rcases hu with rfl | rfl | rfl | rfl | rfl <;> norm_num
    · rcases lt_or_le current 65 with h65 | h65
      · have hn : nextTier current = some 65 := by
          rw [nextTier, tierLadder,
            List.find?_cons_of_neg _ (by simpa using not_lt.mpr h50)]
          exact List.find?_cons_of_pos _ (by simpa using h65)
        refine ⟨65, hn, by simp [targetFor, hn], h65, mem65, ?_⟩
        intro u hu hcu
        simp only [tierLadder, List.mem_cons, List.not_mem_nil, or_false] at hu
        rcases hu with rfl | rfl | rfl | rfl | rfl <;> linarith
      · rcases lt_or_le current 75 with h75 | h75
        · have hn : nextTier current = some 75 := by
            rw [nextTier, tierLadder,
              List.find?_cons_of_neg _ (by simpa using not_lt.mpr h50),
              List.find?_cons_of_neg _ (by simpa using not_lt.mpr h65)]
            exact List.find?_cons_of_pos _ (by simpa using h75)
          refine ⟨75, hn, by simp [targetFor, hn], h75, mem75, ?_⟩
          intro u hu hcu
          simp only [tierLadder, List.mem_cons, List.not_mem_nil, or_false] at hu
          rcases hu with rfl | rfl | rfl | rfl | rfl <;> linarith
        · rcases lt_or_le current 85 with h85 | h85
          · have hn : nextTier current = some 85 := by
              rw [nextTier, tierLadder,
                List.find?_cons_of_neg _ (by simpa using not_lt.mpr h50),
                List.find?_cons_of_neg _ (by simpa using not_lt.mpr h65),
                List.find?_cons_of_neg _ (by simpa using not_lt.mpr h75)]
              exact List.find?_cons_of_pos _ (by simpa using h85)
            refine ⟨85, hn, by simp [targetFor, hn], h85, mem85, ?_⟩
            intro u hu hcu
            simp only [tierLadder, List.mem_cons, List.not_mem_nil, or_false] at hu
            rcases hu with rfl | rfl | rfl | rfl | rfl <;> linarith
          · have hn : nextTier current = some 95 := by
              rw [nextTier, tierLadder,
                List.find?_cons_of_neg _ (by simpa using not_lt.mpr h50),
                List.find?_cons_of_neg _ (by simpa using not_lt.mpr h65),
                List.find?_cons_of_neg _ (by simpa using not_lt.mpr h75),
                List.find?_cons_of_neg _ (by simpa using not_lt.mpr h85)]
              exact List.find?_cons_of_pos _ (by simpa using h)
            refine ⟨95, hn, by simp [targetFor, hn], h, mem95, ?_⟩
            intro u hu hcu
            simp only [tierLadder, List.mem_cons, List.not_mem_nil, or_false] at hu
            rcases hu with rfl | rfl | rfl | rfl | rfl <;> linarith

/-- C7: a submission whose age lies outside 18–80 is rejected by the
validator with a `ValidationError`, the pipeline short-circuits, and no
Summary is produced for it. -/
theorem age_out_of_range_rejected (a : SurveyAnswers) (now : String)
    (h : a.age < 18 ∨ 80 < a.age) :
    (∃ e, validate a = .error e) ∧
    (∃ e, runPipeline a now = .error e) ∧
    ∀ s, runPipeline a now ≠ .ok s := by
  obtain ⟨e, he⟩ : ∃ e, validate a = .error e := by
    by_cases hn : a.name = ""
    · exact ⟨.invalidName, by rw [validate, if_pos hn]⟩
    · exact ⟨.invalidAge, by rw [validate, if_neg hn, if_pos h]⟩
  have hp : runPipeline a now = .error e := by
    rw [runPipeline, he]
    rfl
  exact ⟨⟨e, he⟩, ⟨e, hp⟩, fun s hs => by rw [hp] at hs; cases hs⟩

/-- Witness for C7 at a concrete submission with age 17. -/
theorem age_out_of_range_rejected_witness :
    (∃ e, validate answers17 = .error e) ∧
    (∃ e, runPipeline answers17 "2024-01-01T00:00:00Z" = .error e) ∧
    ∀ s, runPipeline answers17 "2024-01-01T00:00:00Z" ≠ .ok s :=
  age_out_of_range_rejected answers17 "2024-01-01T00:00:00Z" (by decide)

/-- C8: the fetch boundary returns the stored record exactly when the
response is ok, fails with "Survey not found" exactly when the status is 404,
and fails with "Failed to fetch results" exactly on every other non-ok
response, so not-found is always distinguishable from other failures. -/
theorem getSurveyResults_cases (resp : ResultsResponse) :
    (getSurveyResults resp = .ok resp.record ↔ statusOk resp.status = true) ∧
    (getSurveyResults resp = .error "Survey not found" ↔ resp.status = 404) ∧
    (getSurveyResults resp = .error "Failed to fetch results" ↔
      (statusOk resp.status = false ∧ resp.status ≠ 404)) := by
  by_cases hok : statusOk resp.status = true
  · have h404 : resp.status ≠ 404 := by
      intro hs
      rw [hs] at hok
      simp [statusOk] at hok
    refine ⟨?_, ?_, ?_⟩ <;> simp [getSurveyResults, hok, h404]
  · simp only [Bool.not_eq_true] at hok
    by_cases h404 : resp.status = 404
    · have hsf : statusOk 404 = false := by decide
      refine ⟨?_, ?_, ?_⟩ <;> simp [getSurveyResults, hok, h404, hsf]
    · refine ⟨?_, ?_, ?_⟩ <;> simp [getSurveyResults, hok, h404]

/-- C9 (amended): the submit boundary returns the parsed body exactly when
the response is ok; on a non-ok response it fails with the server's `detail`
verbatim when that field is present and non-empty, and falls back to
"Failed to submit survey" when the detail field is absent, null, or the
empty string (JavaScript falsiness), not only when it is absent. -/
theorem submitSurvey_cases (resp : SubmitResponse) :
    (submitSurvey resp = .ok resp.body ↔ statusOk resp.status = true) ∧
    (statusOk resp.status = false → ∀ d, resp.detail = some d → d ≠ "" →
      submitSurvey resp = .error d) ∧
    (statusOk resp.status = false →
      (resp.detail = none ∨ resp.detail = some "") →
      submitSurvey resp = .error "Failed to submit survey") := by
  refine ⟨?_, ?_, ?_⟩
  · by_cases hok : statusOk resp.status = true <;> simp [submitSurvey, hok]
  · intro hfalse d hd hne
    simp [submitSurvey, hfalse, hd, jsDetailOr, hne]
  · intro hfalse hd
    rcases hd with hd | hd <;> simp [submitSurvey, hfalse, hd, jsDetailOr]

/-- Counterexample to C9 as stated: a non-ok response whose body does carry a
`detail` field (the empty string) still fails with the generic fallback, not
with the detail verbatim — `error.detail || fallback` also falls back on an
empty-string detail. -/
theorem submitSurvey_empty_detail_fallback :
    statusOk emptyDetailResponse.status = false ∧
    emptyDetailResponse.detail ≠ none ∧
    submitSurvey emptyDetailResponse = .error "Failed to submit survey" ∧
    submitSurvey emptyDetailResponse ≠ .error "" := by
  refine ⟨rfl, by simp [emptyDetailResponse], rfl, ?_⟩
  intro hs
  rw [show submitSurvey emptyDetailResponse =
    .error "Failed to submit survey" from rfl] at hs
  simp at hs

end Fizikl
